import Mathlib

/-!
Verification development for the brochure-editor frontend.

The definitions below are shallow embeddings of the JavaScript sources:

* `SmartGuides.*`       — src/frontend/smart_guides.js
* `ElementsLibrary.*`   — src/frontend/elements_library.js
* `ColorSchemes.*`      — src/frontend/color_schemes.js
* `MultiFormatExport.*` — src/frontend/multi_format_export.js

JavaScript numbers are modelled as rationals (`ℚ`), DOM element identity as
numeric ids, and browser side effects (toasts, console logging) as explicit
output lists.  Functions named like the source implement the source; functions
whose doc comment begins `Modelled from the spec:` stand for code of the
repository that is not among the provided sources, and follow the spec's words.
-/

/-- A toast message (text, level) together with console log lines, modelling the
user-visible side effects of an operation. -/
structure Effects where
  toasts : List (String × String)
  logs : List String
deriving DecidableEq, Repr

/-- Effects of an operation that neither toasts nor logs. -/
def noEffects : Effects := ⟨[], []⟩

/-- Association-list lookup keyed by strings, modelling JavaScript object
property access such as `ICONS_LIBRARY[iconType]` or `COLOR_SCHEMES[schemeId]`. -/
def lookupStr {α : Type} (l : List (String × α)) (k : String) : Option α :=
  (l.find? (fun p => p.1 == k)).map Prod.snd

namespace SmartGuides

/-- The CONFIG object of smart_guides.js (lines 9-19). -/
structure SnapConfig where
  snapThreshold : ℚ
  guideColor : String
  guideWidth : ℚ
  showDistances : Bool
  snapToGrid : Bool
  gridSize : ℚ
  snapToElements : Bool
  snapToCenter : Bool
  snapToEdges : Bool
deriving DecidableEq, Repr

/-- The default configuration values of smart_guides.js. -/
def defaultConfig : SnapConfig :=
  { snapThreshold := 8
    guideColor := "#FF00FF"
    guideWidth := 1
    showDistances := true
    snapToGrid := false
    gridSize := 10
    snapToElements := true
    snapToCenter := true
    snapToEdges := true }

/-- Canvas bounding-box dimensions (`canvas.getBoundingClientRect()`). -/
structure CanvasDims where
  width : ℚ
  height : ℚ
deriving DecidableEq, Repr

/-- A design element on the canvas: identity plus its canvas-relative bounding
box; `visible` models `el.offsetParent !== null`. -/
structure DElem where
  id : Nat
  left : ℚ
  top : ℚ
  width : ℚ
  height : ℚ
  visible : Bool
deriving DecidableEq, Repr

/-- The module-level mutable state of smart_guides.js that `calculateSnap`
reads or writes: `isEnabled`, `canvas`, and `activeElement` (lines 22-26;
`guides` and `guidesContainer` are only used by the rendering functions). -/
structure ModuleState where
  isEnabled : Bool
  canvas : Option CanvasDims
  activeElement : Option Nat
deriving DecidableEq, Repr

/-- Orientation of a guide line. -/
inductive GuideKind
  | vertical
  | horizontal
deriving DecidableEq, Repr

/-- An alignment-guide descriptor as pushed onto `activeGuides`: `pos` is the
`x` of a vertical guide or the `y` of a horizontal one, `gfrom`/`gto` are the
`from`/`to` extent fields. -/
structure Guide where
  kind : GuideKind
  pos : ℚ
  gfrom : ℚ
  gto : ℚ
  isCenter : Bool
deriving DecidableEq, Repr

/-- A snap target record (lines 149-164): edges, center and dimensions, with
`isCanvas` standing for the `type: 'canvas' | 'element'` tag. -/
structure Target where
  left : ℚ
  top : ℚ
  right : ℚ
  bottom : ℚ
  centerX : ℚ
  centerY : ℚ
  width : ℚ
  height : ℚ
  isCanvas : Bool
deriving DecidableEq, Repr

/-- `getCanvasSnapPoints` (lines 104-118): the canvas box as a snap target. -/
def canvasTarget (c : CanvasDims) : Target :=
  { left := 0
    top := 0
    right := c.width
    bottom := c.height
    centerX := c.width / 2
    centerY := c.height / 2
    width := c.width
    height := c.height
    isCanvas := true }

/-- `getElementSnapPoints` (lines 77-99): a sibling element as a snap target. -/
def elemTarget (e : DElem) : Target :=
  { left := e.left
    top := e.top
    right := e.left + e.width
    bottom := e.top + e.height
    centerX := e.left + e.width / 2
    centerY := e.top + e.height / 2
    width := e.width
    height := e.height
    isCanvas := false }

/-- `getSnappableElements` (lines 67-72): every canvas element other than the
active one whose `offsetParent` is not null. -/
def getSnappableElements (elems : List DElem) (active : Option Nat) : List DElem :=
  elems.filter (fun el =>
    (match active with
     | some a => decide (el.id ≠ a)
     | none => true) && el.visible)

/-- The snap-target list built at lines 149-164: the canvas points first, then
(when `CONFIG.snapToElements`) one target per snappable element. -/
def snapTargets (cfg : SnapConfig) (c : CanvasDims) (elems : List DElem)
    (active : Option Nat) : List Target :=
  canvasTarget c ::
    (if cfg.snapToElements then (getSnappableElements elems active).map elemTarget else [])

/-- The X-axis checks of one loop iteration (lines 171-200): left↔left,
right↔right, left↔right, right↔left, then center↔center, the first hit
producing the corrected x coordinate and a vertical guide. -/
def snapXTarget (cfg : SnapConfig) (c : CanvasDims)
    (eLeft eRight eCenterX eTop eBottom eWidth : ℚ) (t : Target) : Option (ℚ × Guide) :=
  if |eLeft - t.left| ≤ cfg.snapThreshold then
    some (t.left, ⟨.vertical, t.left, min eTop t.top, max eBottom t.bottom, false⟩)
  else if |eRight - t.right| ≤ cfg.snapThreshold then
    some (t.right - eWidth, ⟨.vertical, t.right, min eTop t.top, max eBottom t.bottom, false⟩)
  else if |eLeft - t.right| ≤ cfg.snapThreshold then
    some (t.right, ⟨.vertical, t.right, min eTop t.top, max eBottom t.bottom, false⟩)
  else if |eRight - t.left| ≤ cfg.snapThreshold then
    some (t.left - eWidth, ⟨.vertical, t.left, min eTop t.top, max eBottom t.bottom, false⟩)
  else if cfg.snapToCenter ∧ |eCenterX - t.centerX| ≤ cfg.snapThreshold then
    some (t.centerX - eWidth / 2, ⟨.vertical, t.centerX, 0, c.height, true⟩)
  else none

/-- The X-axis for-loop (lines 167-201): targets are visited in order and the
loop breaks at the first target that produced a snap. -/
def xLoop (cfg : SnapConfig) (c : CanvasDims)
    (eLeft eRight eCenterX eTop eBottom eWidth : ℚ) : List Target → Option (ℚ × Guide)
  | [] => none
  | t :: ts =>
    match snapXTarget cfg c eLeft eRight eCenterX eTop eBottom eWidth t with
    | some r => some r
    | none => xLoop cfg c eLeft eRight eCenterX eTop eBottom eWidth ts

/-- Line 208 of smart_guides.js:
`const adjustedElementTop = snappedX !== newX ? elementTop : newY;`.
Note that the caller passes `elementTop = newY`, making both branches equal. -/
def adjustedTop (snappedX newX elementTop newY : ℚ) : ℚ :=
  if snappedX ≠ newX then elementTop else newY

/-- The Y-axis checks of one loop iteration (lines 208-241): top↔top,
bottom↔bottom, top↔bottom, bottom↔top, then center↔center; horizontal guide
extents use the already-decided `snappedX`. -/
def snapYTarget (cfg : SnapConfig) (c : CanvasDims)
    (snappedX newX newY eHeight eWidth : ℚ) (t : Target) : Option (ℚ × Guide) :=
  let aTop := adjustedTop snappedX newX newY newY
  let aBottom := aTop + eHeight
  let aCenterY := aTop + eHeight / 2
  if |aTop - t.top| ≤ cfg.snapThreshold then
    some (t.top, ⟨.horizontal, t.top, min snappedX t.left, max (snappedX + eWidth) t.right, false⟩)
  else if |aBottom - t.bottom| ≤ cfg.snapThreshold then
    some (t.bottom - eHeight,
      ⟨.horizontal, t.bottom, min snappedX t.left, max (snappedX + eWidth) t.right, false⟩)
  else if |aTop - t.bottom| ≤ cfg.snapThreshold then
    some (t.bottom,
      ⟨.horizontal, t.bottom, min snappedX t.left, max (snappedX + eWidth) t.right, false⟩)
  else if |aBottom - t.top| ≤ cfg.snapThreshold then
    some (t.top - eHeight,
      ⟨.horizontal, t.top, min snappedX t.left, max (snappedX + eWidth) t.right, false⟩)
  else if cfg.snapToCenter ∧ |aCenterY - t.centerY| ≤ cfg.snapThreshold then
    some (t.centerY - eHeight / 2, ⟨.horizontal, t.centerY, 0, c.width, true⟩)
  else none

/-- The Y-axis for-loop (lines 204-242), breaking at the first snapping target. -/
def yLoop (cfg : SnapConfig) (c : CanvasDims)
    (snappedX newX newY eHeight eWidth : ℚ) : List Target → Option (ℚ × Guide)
  | [] => none
  | t :: ts =>
    match snapYTarget cfg c snappedX newX newY eHeight eWidth t with
    | some r => some r
    | none => yLoop cfg c snappedX newX newY eHeight eWidth ts

/-- The corrected coordinate chosen by an axis scan, or the candidate
coordinate when no target snapped (the `snappedX`/`snappedY` variables keep
their initial value when the loop never fires). -/
def corrOr (o : Option (ℚ × Guide)) (d : ℚ) : ℚ :=
  match o with
  | some (v, _) => v
  | none => d

/-- The guides pushed by an axis scan: one when it snapped, none otherwise. -/
def guidesOf (o : Option (ℚ × Guide)) : List Guide :=
  match o with
  | some (_, g) => [g]
  | none => []

/-- JavaScript `Math.round`: round half towards positive infinity. -/
def jsRound (q : ℚ) : ℤ := ⌊q + 1 / 2⌋

/-- `Math.round(v / CONFIG.gridSize) * CONFIG.gridSize` (lines 246, 249). -/
def gridRound (q g : ℚ) : ℚ := (jsRound (q / g) : ℚ) * g

/-- The record returned by `calculateSnap` (lines 252-258). -/
structure SnapResult where
  x : ℚ
  y : ℚ
  guides : List Guide
  snappedX : Bool
  snappedY : Bool
deriving DecidableEq, Repr

/-- `calculateSnap` (lines 124-259).  Besides the returned record, the function
writes the module-level `activeElement` (line 129), so it is modelled as a
state transformer on `ModuleState`.  The early return at lines 125-127 fires
when guides are disabled or no canvas was initialised. -/
def calculateSnap (cfg : SnapConfig) (st : ModuleState) (elems : List DElem)
    (element : DElem) (newX newY : ℚ) : ModuleState × SnapResult :=
  match st.canvas with
  | none => (st, ⟨newX, newY, [], false, false⟩)
  | some c =>
    match st.isEnabled with
    | false => (st, ⟨newX, newY, [], false, false⟩)
    | true =>
      let st' : ModuleState := { st with activeElement := some element.id }
      let eWidth := element.width
      let eHeight := element.height
      let eLeft := newX
      let eTop := newY
      let eRight := newX + eWidth
      let eBottom := newY + eHeight
      let eCenterX := newX + eWidth / 2
      let targets := snapTargets cfg c elems st'.activeElement
      let xres := xLoop cfg c eLeft eRight eCenterX eTop eBottom eWidth targets
      let snappedX := corrOr xres newX
      let yres := yLoop cfg c snappedX newX newY eHeight eWidth targets
      let snappedY := corrOr yres newY
      let finalX := if cfg.snapToGrid ∧ xres = none then gridRound newX cfg.gridSize else snappedX
      let finalY := if cfg.snapToGrid ∧ yres = none then gridRound newY cfg.gridSize else snappedY
      let gs := guidesOf xres ++ guidesOf yres
      (st', ⟨finalX, finalY, gs, xres.isSome, yres.isSome⟩)

/-- One candidate alignment in the spec's description of the snapping pass: its
distance, the coordinate correction it would apply, the guide it would emit,
and whether the alignment kind is enabled by the configuration. -/
structure AlignCase where
  dist : ℚ
  corrected : ℚ
  guide : Guide
  enabled : Bool
deriving DecidableEq, Repr

/-- Spec: "evaluate candidate alignments in this fixed precedence and stop at
first match within the snap threshold" — the first enabled alignment of the
list whose distance is within the threshold. -/
def specFirstMatch (cfg : SnapConfig) (cs : List AlignCase) : Option (ℚ × Guide) :=
  cs.findSome? (fun a =>
    if a.enabled ∧ a.dist ≤ cfg.snapThreshold then some (a.corrected, a.guide) else none)

/-- The X-axis alignment candidates against one target, in the spec's fixed
precedence: same-edge (left↔left, right↔right), opposite-edge (left↔right,
right↔left), then center↔center.  Edge alignments carry a guide spanning the
union of the two aligned boxes; the center alignment carries a centre guide
spanning the full canvas height (this is the amended reading — the spec
sentence said every guide spans the union of the two boxes). -/
def specXCases (cfg : SnapConfig) (c : CanvasDims)
    (eLeft eRight eCenterX eTop eBottom eWidth : ℚ) (t : Target) : List AlignCase :=
  [ { dist := |eLeft - t.left|, corrected := t.left,
      guide := ⟨.vertical, t.left, min eTop t.top, max eBottom t.bottom, false⟩,
      enabled := true },
    { dist := |eRight - t.right|, corrected := t.right - eWidth,
      guide := ⟨.vertical, t.right, min eTop t.top, max eBottom t.bottom, false⟩,
      enabled := true },
    { dist := |eLeft - t.right|, corrected := t.right,
      guide := ⟨.vertical, t.right, min eTop t.top, max eBottom t.bottom, false⟩,
      enabled := true },
    { dist := |eRight - t.left|, corrected := t.left - eWidth,
      guide := ⟨.vertical, t.left, min eTop t.top, max eBottom t.bottom, false⟩,
      enabled := true },
    { dist := |eCenterX - t.centerX|, corrected := t.centerX - eWidth / 2,
      guide := ⟨.vertical, t.centerX, 0, c.height, true⟩,
      enabled := cfg.snapToCenter } ]

/-- The Y-axis alignment candidates against one target, in the spec's fixed
precedence.  The tested distances use the original candidate `newY` (amended
reading: an X snap cannot change them), while the edge-guide extents use the
already-decided `snappedX`.  The center alignment's guide spans the full
canvas width. -/
def specYCases (cfg : SnapConfig) (c : CanvasDims)
    (snappedX newY eHeight eWidth : ℚ) (t : Target) : List AlignCase :=
  [ { dist := |newY - t.top|, corrected := t.top,
      guide := ⟨.horizontal, t.top, min snappedX t.left, max (snappedX + eWidth) t.right, false⟩,
      enabled := true },
    { dist := |newY + eHeight - t.bottom|, corrected := t.bottom - eHeight,
      guide := ⟨.horizontal, t.bottom, min snappedX t.left,
        max (snappedX + eWidth) t.right, false⟩,
      enabled := true },
    { dist := |newY - t.bottom|, corrected := t.bottom,
      guide := ⟨.horizontal, t.bottom, min snappedX t.left,
        max (snappedX + eWidth) t.right, false⟩,
      enabled := true },
    { dist := |newY + eHeight - t.top|, corrected := t.top - eHeight,
      guide := ⟨.horizontal, t.top, min snappedX t.left, max (snappedX + eWidth) t.right, false⟩,
      enabled := true },
    { dist := |newY + eHeight / 2 - t.centerY|, corrected := t.centerY - eHeight / 2,
      guide := ⟨.horizontal, t.centerY, 0, c.width, true⟩,
      enabled := cfg.snapToCenter } ]

/-- The snapping pass as the (amended) spec sentence describes it, written from
the spec's words for comparison with `calculateSnap`: per axis (X then Y), scan
the snap targets in order and, within each target, the alignments in the fixed
precedence of `specXCases`/`specYCases`, stopping at the first match within the
snap threshold; an un-snapped axis is grid-rounded when grid snapping is on. -/
def specCalculateSnap (cfg : SnapConfig) (st : ModuleState) (elems : List DElem)
    (element : DElem) (newX newY : ℚ) : ModuleState × SnapResult :=
  match st.canvas with
  | none => (st, ⟨newX, newY, [], false, false⟩)
  | some c =>
    match st.isEnabled with
    | false => (st, ⟨newX, newY, [], false, false⟩)
    | true =>
      let st' : ModuleState := { st with activeElement := some element.id }
      let targets := snapTargets cfg c elems (some element.id)
      let xres := targets.findSome? (fun t =>
        specFirstMatch cfg (specXCases cfg c newX (newX + element.width)
          (newX + element.width / 2) newY (newY + element.height) element.width t))
      let sx := corrOr xres newX
      let yres := targets.findSome? (fun t =>
        specFirstMatch cfg (specYCases cfg c sx newY element.height element.width t))
      let sy := corrOr yres newY
      let finalX := if cfg.snapToGrid ∧ xres = none then gridRound newX cfg.gridSize else sx
      let finalY := if cfg.snapToGrid ∧ yres = none then gridRound newY cfg.gridSize else sy
      let gs := guidesOf xres ++ guidesOf yres
      (st', ⟨finalX, finalY, gs, xres.isSome, yres.isSome⟩)

end SmartGuides

namespace ElementsLibrary

/-- A page-local position (`position: {x, y}`). -/
structure Pos where
  x : ℚ
  y : ℚ
deriving DecidableEq, Repr

/-- An element size (`size: {width, height}`). -/
structure Dim where
  width : ℚ
  height : ℚ
deriving DecidableEq, Repr

/-- The `options` bag accepted by the element constructors of
elements_library.js; every field is optional. -/
structure ElementOptions where
  position : Option Pos
  size : Option Dim
  zIndex : Option ℚ
  fill : Option String
  stroke : Option String
  strokeWidth : Option ℚ
  opacity : Option ℚ
  borderRadius : Option ℚ
  foreground : Option String
  background : Option String
deriving DecidableEq, Repr

/-- An empty options bag (`{}`). -/
def noOptions : ElementOptions :=
  ⟨none, none, none, none, none, none, none, none, none, none⟩

/-- JavaScript `o || d` for an optional numeric field: `0` is falsy. -/
def orNum (o : Option ℚ) (d : ℚ) : ℚ :=
  match o with
  | some v => if v = 0 then d else v
  | none => d

/-- JavaScript `o || d` for an optional string field: `""` is falsy. -/
def orStr (o : Option String) (d : String) : String :=
  match o with
  | some v => if v = "" then d else v
  | none => d

/-- Modelled from the spec: `ElementDrag.createElementId` lives in the
element-drag module, which is not among the provided sources.  The spec
(§4.2) requires paste and creation to assign "a freshly generated unique id",
so it is modelled as an injective function of a generation counter. -/
def ElementDrag.createElementId (n : Nat) : String :=
  "element_" ++ toString n

/-- A shape element as built by `createShapeElement` (lines 488-505);
`etype` is the JS `type` field. -/
structure ShapeElement where
  id : String
  etype : String
  shapeType : String
  position : Pos
  size : Dim
  rotation : ℚ
  zIndex : ℚ
  locked : Bool
  visible : Bool
  fill : String
  stroke : String
  strokeWidth : ℚ
  opacity : ℚ
  borderRadius : ℚ
deriving DecidableEq, Repr

/-- `createShapeElement(shapeType, options)` (lines 488-505).  `nonce` feeds
the id generator. -/
def createShapeElement (nonce : Nat) (shapeType : String)
    (options : ElementOptions) : ShapeElement :=
  { id := ElementDrag.createElementId nonce
    etype := "shape"
    shapeType := shapeType
    position := options.position.getD ⟨100, 100⟩
    size := options.size.getD ⟨100, 100⟩
    rotation := 0
    zIndex := orNum options.zIndex 10
    locked := false
    visible := true
    fill := orStr options.fill "#C20430"
    stroke := orStr options.stroke "none"
    strokeWidth := orNum options.strokeWidth 0
    opacity := orNum options.opacity 1
    borderRadius := orNum options.borderRadius 0 }

/-- An entry of `window.ICONS_LIBRARY` (external static data): `viewBox` and
`path` of the icon's SVG. -/
structure IconDef where
  viewBox : String
  path : String
deriving DecidableEq, Repr

/-- An icon element as built by `createIconElement` (lines 507-530). -/
structure IconElement where
  id : String
  etype : String
  iconType : String
  position : Pos
  size : Dim
  rotation : ℚ
  zIndex : ℚ
  locked : Bool
  visible : Bool
  fill : String
  viewBox : String
  svgPath : String
  opacity : ℚ
deriving DecidableEq, Repr

/-- `createIconElement(iconType, options)` (lines 507-530): `none` models the
`return null` taken when `iconType` is not a key of the icon library (the
source logs `console.warn('Unknown icon type:', iconType)` on that path). -/
def createIconElement (nonce : Nat) (iconsLib : List (String × IconDef))
    (iconType : String) (options : ElementOptions) : Option IconElement :=
  match lookupStr iconsLib iconType with
  | none => none
  | some iconDef =>
    some { id := ElementDrag.createElementId nonce
           etype := "icon"
           iconType := iconType
           position := options.position.getD ⟨100, 100⟩
           size := options.size.getD ⟨48, 48⟩
           rotation := 0
           zIndex := orNum options.zIndex 10
           locked := false
           visible := true
           fill := orStr options.fill "#374151"
           viewBox := iconDef.viewBox
           svgPath := iconDef.path
           opacity := orNum options.opacity 1 }

/-- A QR-code element as built by `createQRCodeElement` (lines 532-547). -/
structure QRCodeElement where
  id : String
  etype : String
  position : Pos
  size : Dim
  rotation : ℚ
  zIndex : ℚ
  locked : Bool
  visible : Bool
  url : String
  foreground : String
  background : String
  opacity : ℚ
deriving DecidableEq, Repr

/-- `createQRCodeElement(url, options)` (lines 532-547); the source's
`url || ''` is the identity here because `url` is already a string. -/
def createQRCodeElement (nonce : Nat) (url : String)
    (options : ElementOptions) : QRCodeElement :=
  { id := ElementDrag.createElementId nonce
    etype := "qrcode"
    position := options.position.getD ⟨100, 100⟩
    size := options.size.getD ⟨100, 100⟩
    rotation := 0
    zIndex := orNum options.zIndex 10
    locked := false
    visible := true
    url := url
    foreground := orStr options.foreground "#000000"
    background := orStr options.background "#FFFFFF"
    opacity := orNum options.opacity 1 }

/-- A design element of any of the three kinds the library creates. -/
inductive AnyElement
  | shape (e : ShapeElement)
  | icon (e : IconElement)
  | qrcode (e : QRCodeElement)
deriving DecidableEq, Repr

/-- The zIndex of an element of any kind. -/
def AnyElement.zIndexOf : AnyElement → ℚ
  | .shape e => e.zIndex
  | .icon e => e.zIndex
  | .qrcode e => e.zIndex

/-- One undo/redo history entry as pushed by `saveToHistory` (src/Dockerfile
bundled editor module, lines 493-497): the action label, the state snapshot
returned by `captureEditorState()` (a DOM/editor-map serialisation, carried
here as an abstract token since `saveToHistory` only stores it), and the
`Date.now()` timestamp. -/
structure HistoryEntry where
  action : String
  state : Nat
  timestamp : Nat
deriving DecidableEq, Repr

/-- The slice of the bundled editor module's `EditorState` (src/Dockerfile,
lines 53-84) that these operations touch: the selected page, the per-page
element lists, the undo/redo stack with its index, bound and restore guard,
and the dirty flag. -/
structure EditorSt where
  currentPage : Option String
  elements : List (String × List AnyElement)
  history : List HistoryEntry
  historyIndex : Int
  maxHistorySize : Nat
  isUndoRedo : Bool
  isDirty : Bool
deriving DecidableEq, Repr

/-- Replace (or create) the element list of one page. -/
def setPageElems (l : List (String × List AnyElement)) (pageId : String)
    (es : List AnyElement) : List (String × List AnyElement) :=
  if (l.find? (fun p => p.1 == pageId)).isSome then
    l.map (fun p => if p.1 == pageId then (p.1, es) else p)
  else l ++ [(pageId, es)]

/-- `saveToHistory(actionName)` (src/Dockerfile bundled editor module, lines
480-507): a no-op while an undo/redo restore is in progress; otherwise it
captures the editor state, truncates any redo tail beyond `historyIndex`
(`history.slice(0, historyIndex + 1)`), pushes the new entry, and then either
evicts the oldest entry (`history.shift()`, index unchanged) when the bound is
exceeded or advances the index.  The `captureEditorState()` result and the
`Date.now()` clock are environment inputs passed in as `capture` and `now`;
`updateUndoRedoButtons()` only touches the toolbar UI. -/
def saveToHistory (st : EditorSt) (actionName : String) (capture : Nat) (now : Nat) : EditorSt :=
  if st.isUndoRedo then st
  else
    let history1 :=
      if st.historyIndex < (st.history.length : Int) - 1 then
        st.history.take (st.historyIndex + 1).toNat
      else st.history
    let history2 := history1 ++ [⟨actionName, capture, now⟩]
    if history2.length > st.maxHistorySize then
      { st with history := history2.drop 1 }
    else
      { st with history := history2, historyIndex := st.historyIndex + 1 }

/-- Modelled from the spec: `ElementDrag.getNextZIndex` is not among the
provided sources; per spec §3 "zIndex ordering is a total order per page", so
the next z-index is one above the page's current maximum. -/
def getNextZIndex (st : EditorSt) (pageId : String) : ℚ :=
  (((lookupStr st.elements pageId).getD []).map AnyElement.zIndexOf).foldl max 10 + 1

/-- Modelled from the spec: `ElementDrag.addElementToPage` is not among the
provided sources; per spec §4.2 a mutating element operation appends the
element to `EditorState.elements[pageId]` and sets the dirty flag. -/
def ElementDrag.addElementToPage (st : EditorSt) (el : AnyElement)
    (pageId : String) : EditorSt :=
  let old := (lookupStr st.elements pageId).getD []
  { st with elements := setPageElems st.elements pageId (old ++ [el]), isDirty := true }

/-- `addElementAtPosition(pageId, elementType, shapeType, iconType, x, y)`
(lines 570-615).  `propertyUrl` models `getPropertyUrl()`; `capture` and `now`
are the environment inputs of the `saveToHistory('add element')` call on the
success path; the unknown-icon log that the source emits inside
`createIconElement` is surfaced here on the `elementData == null` path. -/
def addElementAtPosition (iconsLib : List (String × IconDef)) (nonce : Nat)
    (propertyUrl : String) (capture now : Nat) (st : EditorSt)
    (pageId elementType shapeType iconType : String)
    (x y : ℚ) : EditorSt × Effects :=
  let zIndex := getNextZIndex st pageId
  let opts : ElementOptions := { noOptions with position := some ⟨x, y⟩, zIndex := some zIndex }
  let elementData : Option AnyElement :=
    if elementType = "shape" then some (.shape (createShapeElement nonce shapeType opts))
    else if elementType = "icon" then (createIconElement nonce iconsLib iconType opts).map .icon
    else if elementType = "qrcode" then some (.qrcode (createQRCodeElement nonce propertyUrl opts))
    else none
  match elementData with
  | none =>
    (st, { toasts := []
           logs := if elementType = "icon" ∧ lookupStr iconsLib iconType = none then
               ["Unknown icon type: " ++ iconType]
             else [] })
  | some el =>
    let st1 := saveToHistory st "add element" capture now
    let st2 := ElementDrag.addElementToPage st1 el pageId
    (st2, { toasts := [("Added " ++ elementType, "success")], logs := [] })

/-- The page geometry `addElementToCurrentPage` reads from the DOM
(`.brochure-page[data-page-id=...]`, `offsetWidth`, `offsetHeight`). -/
structure PageDomInfo where
  pageId : String
  offsetWidth : ℚ
  offsetHeight : ℚ
deriving DecidableEq, Repr

/-- `addElementToCurrentPage(elementType, shapeType, iconType)` (lines
553-568): bail out with a warning toast when no page is selected, silently
when the page's DOM node is missing, otherwise add at the page center. -/
def addElementToCurrentPage (iconsLib : List (String × IconDef)) (nonce : Nat)
    (propertyUrl : String) (capture now : Nat) (dom : List PageDomInfo) (st : EditorSt)
    (elementType shapeType iconType : String) : EditorSt × Effects :=
  match st.currentPage with
  | none => (st, { toasts := [("Please select a page first", "warning")], logs := [] })
  | some pageId =>
    match dom.find? (fun p => p.pageId == pageId) with
    | none => (st, noEffects)
    | some page =>
      addElementAtPosition iconsLib nonce propertyUrl capture now st pageId elementType
        shapeType iconType (page.offsetWidth / 2 - 50) (page.offsetHeight / 2 - 50)

/-- `addQRCodeToCurrentPage()` (lines 617-619). -/
def addQRCodeToCurrentPage (iconsLib : List (String × IconDef)) (nonce : Nat)
    (propertyUrl : String) (capture now : Nat) (dom : List PageDomInfo) (st : EditorSt) :
    EditorSt × Effects :=
  addElementToCurrentPage iconsLib nonce propertyUrl capture now dom st "qrcode" "" ""

end ElementsLibrary

namespace ColorSchemes

/-- One preset colour scheme of color_schemes.js (lines 13-64). -/
structure Scheme where
  name : String
  primary : String
  secondary : String
  accent : String
  background : String
  text : String
deriving DecidableEq, Repr

/-- The COLOR_SCHEMES table of color_schemes.js (lines 13-64), keyed by
scheme id. -/
def COLOR_SCHEMES : List (String × Scheme) :=
  [ ("classicNavy", ⟨"Classic Navy", "#1a365d", "#2c5282", "#ed8936", "#ffffff", "#2d3748"⟩),
    ("corporateBlue", ⟨"Corporate Blue", "#0066cc", "#004499", "#ff6600", "#f8fafc", "#1e293b"⟩),
    ("executiveGray", ⟨"Executive Gray", "#374151", "#6b7280", "#f59e0b", "#ffffff", "#111827"⟩),
    ("professionalGreen",
      ⟨"Professional Green", "#065f46", "#047857", "#fbbf24", "#f0fdf4", "#14532d"⟩),
    ("blackGold", ⟨"Black & Gold", "#1a1a1a", "#333333", "#d4af37", "#0d0d0d", "#ffffff"⟩),
    ("platinumLux", ⟨"Platinum Luxury", "#2d3748", "#4a5568", "#c9a961", "#f7fafc", "#1a202c"⟩),
    ("roseGoldElite", ⟨"Rose Gold Elite", "#4a3728", "#6b4423", "#e8b4b8", "#fdf2f8", "#3d2914"⟩),
    ("sapphireRoyal", ⟨"Sapphire Royal", "#1e3a5f", "#2c5282", "#c9a961", "#f0f9ff", "#0c4a6e"⟩),
    ("emeraldPrestige",
      ⟨"Emerald Prestige", "#064e3b", "#047857", "#fcd34d", "#ecfdf5", "#022c22"⟩),
    ("modernMono", ⟨"Modern Mono", "#000000", "#404040", "#666666", "#ffffff", "#000000"⟩),
    ("cleanSlate", ⟨"Clean Slate", "#334155", "#64748b", "#0ea5e9", "#f8fafc", "#0f172a"⟩),
    ("urbanChic", ⟨"Urban Chic", "#18181b", "#3f3f46", "#a855f7", "#fafafa", "#09090b"⟩),
    ("techModern", ⟨"Tech Modern", "#0f172a", "#1e293b", "#22d3ee", "#f1f5f9", "#020617"⟩),
    ("sunsetCoral", ⟨"Sunset Coral", "#dc2626", "#f97316", "#fbbf24", "#fff7ed", "#7c2d12"⟩),
    ("oceanBreeze", ⟨"Ocean Breeze", "#0891b2", "#06b6d4", "#f97316", "#ecfeff", "#164e63"⟩),
    ("forestFresh", ⟨"Forest Fresh", "#15803d", "#22c55e", "#facc15", "#f0fdf4", "#14532d"⟩),
    ("berryBliss", ⟨"Berry Bliss", "#7c3aed", "#a855f7", "#f472b6", "#faf5ff", "#4c1d95"⟩),
    ("warmSand", ⟨"Warm Sand", "#92400e", "#b45309", "#059669", "#fefce8", "#78350f"⟩),
    ("stoneNatural", ⟨"Stone Natural", "#57534e", "#78716c", "#84cc16", "#fafaf9", "#292524"⟩),
    ("woodlandBrown", ⟨"Woodland Brown", "#5c4033", "#8b6914", "#4ade80", "#fdf6e3", "#3d2914"⟩),
    ("terracotta", ⟨"Terracotta", "#c2410c", "#ea580c", "#16a34a", "#fff7ed", "#7c2d12"⟩),
    ("britishCottage", ⟨"British Cottage", "#5d6e5c", "#a8b5a0", "#d4a574", "#faf8f5", "#3d3d3d"⟩),
    ("cosyHearth", ⟨"Cosy Hearth", "#8b4d3b", "#c9a88e", "#deb887", "#fff9f5", "#4a3728"⟩),
    ("sageAndStone", ⟨"Sage & Stone", "#7d8471", "#b5baa8", "#c49a6c", "#f5f5f0", "#404040"⟩),
    ("dustyRose", ⟨"Dusty Rose", "#b8848c", "#d4a5a5", "#8b7355", "#fdf6f6", "#5c4a4a"⟩),
    ("warmTaupe", ⟨"Warm Taupe", "#8b7d72", "#a89f94", "#c17f59", "#faf7f4", "#4a4540"⟩),
    ("heritageGreen", ⟨"Heritage Green", "#2d4a3e", "#5c7a6b", "#d4af37", "#f4f7f5", "#1a2e24"⟩),
    ("countryManor", ⟨"Country Manor", "#4a5568", "#9ca3af", "#92400e", "#f8f6f3", "#2d3748"⟩),
    ("coastalCalm", ⟨"Coastal Calm", "#4a6670", "#8fa3ad", "#d4a574", "#f5f8f9", "#2c3e43"⟩),
    ("savillsStyle", ⟨"Savills", "#1a3c6e", "#c9a961", "#8b7355", "#f8f6f3", "#333333"⟩),
    ("knightFrankStyle", ⟨"Knight Frank", "#003366", "#d4af37", "#4a4a4a", "#ffffff", "#1a1a1a"⟩),
    ("foxtonsStyle", ⟨"Foxtons", "#00594c", "#8dc63f", "#ffffff", "#f5f5f5", "#333333"⟩),
    ("purpleBricksStyle",
      ⟨"Purple Bricks", "#6b2d5b", "#f7941d", "#ffffff", "#ffffff", "#333333"⟩),
    ("rightmoveStyle", ⟨"Rightmove", "#00deb6", "#2c2c2c", "#ff5a00", "#ffffff", "#2c2c2c"⟩),
    ("zooplaStyle", ⟨"Zoopla", "#6d2077", "#e95420", "#8a3e91", "#ffffff", "#333333"⟩),
    ("hamptonsStyle", ⟨"Hamptons", "#003057", "#c5a572", "#666666", "#f9f9f9", "#1a1a1a"⟩),
    ("dextersStyle", ⟨"Dexters", "#000000", "#e31837", "#ffffff", "#f5f5f5", "#1a1a1a"⟩) ]

/-- The colour slots of one rendered page that `applyColorsToPages`
(lines 169-241) rewrites.  The DOM walk is abstracted to one representative
slot per selector group: page background, shape fill/stroke, icon fill,
heading and body text colour, header/footer and middle background elements,
and badge/button accents. -/
structure PageDom where
  pageId : String
  background : String
  shapeFill : String
  shapeStroke : String
  iconFill : String
  iconStroke : String
  headingColor : String
  bodyColor : String
  headerFooterBg : String
  middleBg : String
  badgeColor : String
deriving DecidableEq, Repr

/-- The per-page effect of `applyColorsToPages`: background from the scheme's
background, shape fills/strokes from primary/secondary, icon fill and stroke
from accent, headings from primary, body text from the text colour,
header/footer background elements from primary, other background elements from
secondary, and badges/buttons from accent. -/
def applyToPage (s : Scheme) (p : PageDom) : PageDom :=
  { p with
    background := s.background
    shapeFill := s.primary
    shapeStroke := s.secondary
    iconFill := s.accent
    iconStroke := s.accent
    headingColor := s.primary
    bodyColor := s.text
    headerFooterBg := s.primary
    middleBg := s.secondary
    badgeColor := s.accent }

/-- `applyColorsToPages(scheme, currentPageOnly)` (lines 169-241): all pages,
or only the currently selected page when `currentPageOnly` is set and a
current page exists. -/
def applyColorsToPages (s : Scheme) (currentPageOnly : Bool) (curPage : Option String)
    (pages : List PageDom) : List PageDom :=
  if currentPageOnly ∧ curPage.isSome then
    pages.map (fun p => if some p.pageId = curPage then applyToPage s p else p)
  else
    pages.map (applyToPage s)

/-- The state touched by `applyColorScheme`: the module-level `currentScheme`,
the rendered pages, the editor dirty flag and the history stack. -/
structure CSState where
  currentScheme : Option String
  pages : List PageDom
  editorDirty : Bool
  history : List String
deriving DecidableEq, Repr

/-- `applyColorScheme(schemeId, currentPageOnly)` (lines 142-167): an unknown
scheme id is logged (`console.error`) and the function returns with no other
effect; a known scheme sets `currentScheme`, recolours the pages, toasts,
marks the editor dirty and records one history snapshot. -/
def applyColorScheme (st : CSState) (schemeId : String) (currentPageOnly : Bool)
    (curPage : Option String) : CSState × Effects :=
  match lookupStr COLOR_SCHEMES schemeId with
  | none => (st, { toasts := [], logs := ["Unknown color scheme: " ++ schemeId] })
  | some scheme =>
    ({ currentScheme := some schemeId
       pages := applyColorsToPages scheme currentPageOnly curPage st.pages
       editorDirty := true
       history := "apply color scheme" :: st.history },
     { toasts := [("Applied \"" ++ scheme.name ++ "\" color scheme", "success")], logs := [] })

end ColorSchemes

namespace MultiFormatExport

/-- A content block of a brochure page (`page.contentBlocks[i]`): its `type`
(here `btype`), optional `title` and `content`, with absent strings modelled
as `""` (JavaScript falsy). -/
structure Block where
  btype : String
  title : String
  content : String
deriving DecidableEq, Repr

/-- The `page.content` mapping as read by `extractContentSections`: `intro`,
`highlights` and `description`, with `""`/`[]` for absent values. -/
structure PageContent where
  intro : String
  highlights : List String
  description : String
deriving DecidableEq, Repr

/-- A brochure page as consumed by multi_format_export.js
(`window.brochureData.pages[i]`). -/
structure PageX where
  name : String
  content : PageContent
  contentBlocks : List Block
deriving DecidableEq, Repr

/-- The sections record assembled by `extractContentSections` (lines 740-748). -/
structure Sections where
  opening : String
  highlights : List String
  situation : String
  accommodation : String
  outside : String
  services : String
  additional : List (String × String)
deriving DecidableEq, Repr

/-- The initial, empty sections record. -/
def emptySections : Sections := ⟨"", [], "", "", "", "", []⟩

/-- JavaScript `s.includes(sub)` for a non-empty `sub`. -/
def containsStr (s sub : String) : Bool := decide (2 ≤ (s.splitOn sub).length)

/-- The block scan of `extractContentSections` (lines 798-815): non-photo
blocks with content are routed by their lowercased title into the matching
section, and "brief"/"highlight" blocks are split into bullet points on
`•`, `-` and newlines, trimmed, and appended to the highlights. -/
def collectFromBlock (s : Sections) (b : Block) : Sections :=
  if b.btype ≠ "photo" ∧ b.content ≠ "" then
    let blockTitle := (if b.title ≠ "" then b.title else b.btype).toLower
    if containsStr blockTitle "situation" || containsStr blockTitle "location" then
      { s with situation := if s.situation ≠ "" then s.situation else b.content }
    else if containsStr blockTitle "accommodation" then
      { s with accommodation := if s.accommodation ≠ "" then s.accommodation else b.content }
    else if containsStr blockTitle "garden" || containsStr blockTitle "outside" then
      { s with outside := if s.outside ≠ "" then s.outside else b.content }
    else if containsStr blockTitle "service" then
      { s with services := if s.services ≠ "" then s.services else b.content }
    else if containsStr blockTitle "brief" || containsStr blockTitle "highlight" then
      let points := (b.content.split (fun c => c == '•' || c == '-' || c == '\n')).filter
        (fun p => p.trim ≠ "")
      { s with highlights := s.highlights ++ points.map String.trim }
    else s
  else s

/-- The per-page scan of `extractContentSections` (lines 754-816): intro wins
last, highlights accumulate (spreading an absent array is modelled by
appending `[]`), the description is routed by the lowercased page name, and
unmatched descriptions become additional sections. -/
def collectFromPage (s : Sections) (page : PageX) : Sections :=
  let pageName := page.name.toLower
  let description := page.content.description
  let s1 := if page.content.intro ≠ "" then { s with opening := page.content.intro } else s
  let s2 := { s1 with highlights := s1.highlights ++ page.content.highlights }
  let s3 :=
    if containsStr pageName "location" || containsStr pageName "situation" then
      { s2 with situation := if description ≠ "" then description else s2.situation }
    else if containsStr pageName "living" || containsStr pageName "reception" ||
        containsStr pageName "accommodation" then
      { s2 with accommodation :=
          if s2.accommodation ≠ "" then s2.accommodation ++ "\n\n" ++ description
          else description }
    else if containsStr pageName "kitchen" then
      { s2 with accommodation :=
          if s2.accommodation ≠ "" then s2.accommodation ++ "\n\n" ++ description
          else description }
    else if containsStr pageName "bedroom" then
      { s2 with accommodation :=
          if s2.accommodation ≠ "" then s2.accommodation ++ "\n\n" ++ description
          else description }
    else if containsStr pageName "bathroom" then
      { s2 with accommodation :=
          if s2.accommodation ≠ "" then s2.accommodation ++ "\n\n" ++ description
          else description }
    else if containsStr pageName "garden" || containsStr pageName "outside" ||
        containsStr pageName "exterior" then
      { s2 with outside := if description ≠ "" then description else s2.outside }
    else if containsStr pageName "contact" || containsStr pageName "service" then
      { s2 with services := if description ≠ "" then description else s2.services }
    else if description ≠ "" then
      { s2 with additional :=
          s2.additional ++ [((if page.name ≠ "" then page.name else "Details"), description)] }
    else s2
  page.contentBlocks.foldl collectFromBlock s3

/-- JavaScript `[...new Set(xs)]`: deduplicate keeping the first occurrence of
each string, in insertion order. -/
def dedupKeepFirst (seen : List String) : List String → List String
  | [] => []
  | a :: l =>
    if a ∈ seen then dedupKeepFirst seen l
    else a :: dedupKeepFirst (a :: seen) l

/-- `extractContentSections(pages)` (lines 739-822): fold over the pages and
then deduplicate the highlights and keep at most the first 8
(`[...new Set(sections.highlights)].slice(0, 8)`, line 819). -/
def extractContentSections (pages : List PageX) : Sections :=
  if pages = [] then emptySections
  else
    let s := pages.foldl collectFromPage emptySections
    { s with highlights := (dedupKeepFirst [] s.highlights).take 8 }

/-- The contents of one file placed into the export ZIP: a binary blob
(abstracted to `β`) or a text file. -/
inductive ZipContent (β : Type)
  | blob (b : β)
  | text (s : String)
deriving DecidableEq, Repr

/-- The slice of `window.brochureData` that `exportMultipleFormats` reads: the
page list.  The PDF request posts this whole record to the backend. -/
structure BrochureData where
  pages : List PageX
deriving DecidableEq, Repr

/-- `exportMultipleFormats` (lines 46-140), modelled as the list of files
added to the ZIP archive, in insertion order.  `pdfGen` stands for the
backend round-trip of `exportPDFBlob` applied to the full brochure data
(`none` models its error path, which returns null so the export continues);
`imgGen page format quality` stands for `generatePageImage` (`none` models a
failed generation, whose files are skipped); `htmlGen` stands for
`generateHTMLPreview`, applied to the full page list; `readme` stands for the
timestamped `generateReadme()` text.  Page images are generated only for
`i < min(pages.length, 10)` (line 74). -/
def exportMultipleFormats {β : Type} (data : Option BrochureData)
    (pdfGen : BrochureData → Option β)
    (imgGen : PageX → String → ℚ → Option β)
    (htmlGen : List PageX → String)
    (readme : String) : List (String × ZipContent β) :=
  let pages := (data.map BrochureData.pages).getD []
  let pdfPart : List (String × ZipContent β) :=
    match data with
    | none => []
    | some d =>
      match pdfGen d with
      | some b => [("brochure.pdf", .blob b)]
      | none => []
  let imgPart : List (String × ZipContent β) :=
    (List.range (min pages.length 10)).flatMap (fun i =>
      match pages[i]? with
      | some page =>
        (match imgGen page "jpeg" (85 / 100) with
         | some b => [("images/page_" ++ toString (i + 1) ++ ".jpg", .blob b)]
         | none => []) ++
        (match imgGen page "png" 1 with
         | some b => [("images/page_" ++ toString (i + 1) ++ ".png", .blob b)]
         | none => [])
      | none => [])
  pdfPart ++ imgPart ++
    [("preview.html", .text (htmlGen pages)), ("README.txt", .text readme)]

end MultiFormatExport

namespace SmartGuides

/-- The ternary at line 208 is the identity on `newY`: the caller binds
`elementTop = newY`, so both branches coincide. -/
theorem adjustedTop_self (a b y : ℚ) : adjustedTop a b y y = y := by
  unfold adjustedTop
  split <;> rfl

/-- The nested if-chain of one X-axis loop iteration is exactly the spec's
"first alignment within the threshold, in the fixed precedence". -/
theorem snapXTarget_eq_spec (cfg : SnapConfig) (c : CanvasDims)
    (eLeft eRight eCenterX eTop eBottom eWidth : ℚ) (t : Target) :
    snapXTarget cfg c eLeft eRight eCenterX eTop eBottom eWidth t =
      specFirstMatch cfg (specXCases cfg c eLeft eRight eCenterX eTop eBottom eWidth t) := by
  simp only [snapXTarget, specFirstMatch, specXCases, List.findSome?, true_and]
  split_ifs <;> rfl

/-- The nested if-chain of one Y-axis loop iteration is exactly the spec's
"first alignment within the threshold", with the distances evaluated at the
original candidate `newY`. -/
theorem snapYTarget_eq_spec (cfg : SnapConfig) (c : CanvasDims)
    (snappedX newX newY eHeight eWidth : ℚ) (t : Target) :
    snapYTarget cfg c snappedX newX newY eHeight eWidth t =
      specFirstMatch cfg (specYCases cfg c snappedX newY eHeight eWidth t) := by
  simp only [snapYTarget, adjustedTop_self, specFirstMatch, specYCases, List.findSome?, true_and]
  split_ifs <;> rfl

/-- The X-axis for-loop with its break flag is a first-some scan of the
targets. -/
theorem xLoop_eq_findSome (cfg : SnapConfig) (c : CanvasDims)
    (eLeft eRight eCenterX eTop eBottom eWidth : ℚ) :
    ∀ ts : List Target, xLoop cfg c eLeft eRight eCenterX eTop eBottom eWidth ts =
      ts.findSome? (snapXTarget cfg c eLeft eRight eCenterX eTop eBottom eWidth)
  | [] => rfl
  | t :: ts => by
    rw [xLoop, List.findSome?]
    cases snapXTarget cfg c eLeft eRight eCenterX eTop eBottom eWidth t with
    | some r => rfl
    | none => exact xLoop_eq_findSome cfg c eLeft eRight eCenterX eTop eBottom eWidth ts

/-- The Y-axis for-loop with its break flag is a first-some scan of the
targets. -/
theorem yLoop_eq_findSome (cfg : SnapConfig) (c : CanvasDims)
    (snappedX newX newY eHeight eWidth : ℚ) :
    ∀ ts : List Target, yLoop cfg c snappedX newX newY eHeight eWidth ts =
      ts.findSome? (snapYTarget cfg c snappedX newX newY eHeight eWidth)
  | [] => rfl
  | t :: ts => by
    rw [yLoop, List.findSome?]
    cases snapYTarget cfg c snappedX newX newY eHeight eWidth t with
    | some r => rfl
    | none => exact yLoop_eq_findSome cfg c snappedX newX newY eHeight eWidth ts

end SmartGuides

namespace SmartGuides

/-- C1 (amended): for every configuration, module state, element set and
candidate position, `calculateSnap` evaluates, per axis (X then Y), the
candidate alignments in the fixed precedence same-edge, opposite-edge, then
center-to-center, scanning the snap targets in order (canvas first) and
stopping at the first target with a match within the snap threshold (default
8 px); each match applies the corresponding coordinate correction, edge
alignments emit a guide spanning the union of the two aligned boxes, and
center alignments emit a guide spanning the full canvas height (X axis) or
width (Y axis).  Stated as equality with `specCalculateSnap`, the direct
transcription of that description. -/
theorem calculateSnap_eq_spec_description (cfg : SnapConfig) (st : ModuleState)
    (elems : List DElem) (element : DElem) (newX newY : ℚ) :
    calculateSnap cfg st elems element newX newY =
      specCalculateSnap cfg st elems element newX newY := by
  obtain ⟨en, cv, ae⟩ := st
  cases cv with
  | none => rfl
  | some c =>
    cases en with
    | false => rfl
    | true =>
      have hx : ∀ a b d e f g, snapXTarget cfg c a b d e f g =
          fun t => specFirstMatch cfg (specXCases cfg c a b d e f g t) :=
        fun a b d e f g => funext (snapXTarget_eq_spec cfg c a b d e f g)
      have hy : ∀ sx nx ny h w, snapYTarget cfg c sx nx ny h w =
          fun t => specFirstMatch cfg (specYCases cfg c sx ny h w t) :=
        fun sx nx ny h w => funext (snapYTarget_eq_spec cfg c sx nx ny h w)
      simp only [calculateSnap, specCalculateSnap, xLoop_eq_findSome, yLoop_eq_findSome, hx, hy]

end SmartGuides

namespace SmartGuides

/-- C1 counterexample: on a 300×300 canvas with one sibling element occupying
x ∈ [200, 240], y ∈ [50, 60], dragging a 40×40 element to candidate position
(100, 30) produces a Y-axis center-to-center snap (centers 50 vs 55), and the
emitted guide spans the full canvas width, from 0 to 300 — not the union of
the two aligned boxes, which spans from min(100, 200) = 100 to
max(140, 240) = 240.  This refutes the claim that every match "emits a guide
line spanning the union of the two aligned boxes". -/
theorem calculateSnap_center_guide_not_box_union :
    (calculateSnap defaultConfig ⟨true, some ⟨300, 300⟩, none⟩ [⟨2, 200, 50, 40, 10, true⟩]
        ⟨1, 0, 0, 40, 40, true⟩ 100 30).2 =
      ⟨100, 35, [⟨.horizontal, 55, 0, 300, true⟩], false, true⟩ ∧
    ¬ ((0 : ℚ) = min 100 200 ∧ (300 : ℚ) = max (100 + 40) (200 + 40)) := by
  constructor
  · norm_num [calculateSnap, defaultConfig, snapTargets, getSnappableElements, canvasTarget,
      elemTarget, xLoop, snapXTarget, yLoop, snapYTarget, adjustedTop, corrOr, guidesOf]
  · norm_num

end SmartGuides

namespace SmartGuides

/-- Per target, the Y-axis snap decision (matched-or-not, and corrected y) is
the same for any two values of the already-decided X — only the guide extents
mention `snappedX`. -/
theorem snapYTarget_fst_indep (cfg : SnapConfig) (c : CanvasDims)
    (sx nx sx' nx' newY eHeight eWidth : ℚ) (t : Target) :
    (snapYTarget cfg c sx nx newY eHeight eWidth t).map Prod.fst =
      (snapYTarget cfg c sx' nx' newY eHeight eWidth t).map Prod.fst := by
  simp only [snapYTarget, adjustedTop_self]
  split_ifs <;> rfl

/-- Loop-level version of `snapYTarget_fst_indep`. -/
theorem yLoop_fst_indep (cfg : SnapConfig) (c : CanvasDims)
    (sx nx sx' nx' newY eHeight eWidth : ℚ) :
    ∀ ts : List Target, (yLoop cfg c sx nx newY eHeight eWidth ts).map Prod.fst =
      (yLoop cfg c sx' nx' newY eHeight eWidth ts).map Prod.fst
  | [] => rfl
  | t :: ts => by
    have h1 := snapYTarget_fst_indep cfg c sx nx sx' nx' newY eHeight eWidth t
    rw [yLoop, yLoop]
    cases hA : snapYTarget cfg c sx nx newY eHeight eWidth t with
    | some r =>
      rw [hA] at h1
      cases hB : snapYTarget cfg c sx' nx' newY eHeight eWidth t with
      | some r' => rw [hB] at h1; simpa using h1
      | none => rw [hB] at h1; simp at h1
    | none =>
      rw [hA] at h1
      cases hB : snapYTarget cfg c sx' nx' newY eHeight eWidth t with
      | some r' => rw [hB] at h1; simp at h1
      | none => exact yLoop_fst_indep cfg c sx nx sx' nx' newY eHeight eWidth ts

/-- Per target, the X-axis snap decision is independent of the candidate Y —
only the guide extents mention the element's top and bottom. -/
theorem snapXTarget_fst_indep (cfg : SnapConfig) (c : CanvasDims)
    (eLeft eRight eCenterX t1 b1 t2 b2 eWidth : ℚ) (t : Target) :
    (snapXTarget cfg c eLeft eRight eCenterX t1 b1 eWidth t).map Prod.fst =
      (snapXTarget cfg c eLeft eRight eCenterX t2 b2 eWidth t).map Prod.fst := by
  simp only [snapXTarget]
  split_ifs <;> rfl

/-- Loop-level version of `snapXTarget_fst_indep`. -/
theorem xLoop_fst_indep (cfg : SnapConfig) (c : CanvasDims)
    (eLeft eRight eCenterX t1 b1 t2 b2 eWidth : ℚ) :
    ∀ ts : List Target, (xLoop cfg c eLeft eRight eCenterX t1 b1 eWidth ts).map Prod.fst =
      (xLoop cfg c eLeft eRight eCenterX t2 b2 eWidth ts).map Prod.fst
  | [] => rfl
  | t :: ts => by
    have h1 := snapXTarget_fst_indep cfg c eLeft eRight eCenterX t1 b1 t2 b2 eWidth t
    rw [xLoop, xLoop]
    cases hA : snapXTarget cfg c eLeft eRight eCenterX t1 b1 eWidth t with
    | some r =>
      rw [hA] at h1
      cases hB : snapXTarget cfg c eLeft eRight eCenterX t2 b2 eWidth t with
      | some r' => rw [hB] at h1; simpa using h1
      | none => rw [hB] at h1; simp at h1
    | none =>
      rw [hA] at h1
      cases hB : snapXTarget cfg c eLeft eRight eCenterX t2 b2 eWidth t with
      | some r' => rw [hB] at h1; simp at h1
      | none => exact xLoop_fst_indep cfg c eLeft eRight eCenterX t1 b1 t2 b2 eWidth ts

end SmartGuides

namespace SmartGuides

/-- The final y coordinate (grid rounding included) and the Y-snapped flag are
unchanged when the already-decided X inputs of the Y scan change. -/
theorem yFinal_indep (cfg : SnapConfig) (c : CanvasDims)
    (sx nx sx' nx' newY eHeight eWidth : ℚ) (ts : List Target) :
    ((if cfg.snapToGrid ∧ yLoop cfg c sx nx newY eHeight eWidth ts = none then
        gridRound newY cfg.gridSize
      else corrOr (yLoop cfg c sx nx newY eHeight eWidth ts) newY) =
      (if cfg.snapToGrid ∧ yLoop cfg c sx' nx' newY eHeight eWidth ts = none then
        gridRound newY cfg.gridSize
      else corrOr (yLoop cfg c sx' nx' newY eHeight eWidth ts) newY)) ∧
    (yLoop cfg c sx nx newY eHeight eWidth ts).isSome =
      (yLoop cfg c sx' nx' newY eHeight eWidth ts).isSome := by
  have h1 := yLoop_fst_indep cfg c sx nx sx' nx' newY eHeight eWidth ts
  cases hA : yLoop cfg c sx nx newY eHeight eWidth ts with
  | some r =>
    rw [hA] at h1
    cases hB : yLoop cfg c sx' nx' newY eHeight eWidth ts with
    | some r' =>
      rw [hB] at h1
      obtain ⟨v, g⟩ := r
      obtain ⟨v', g'⟩ := r'
      simp only [Option.map_some', Option.some.injEq] at h1
      refine ⟨?_, rfl⟩
      simp [corrOr, h1]
    | none => rw [hB] at h1; simp at h1
  | none =>
    rw [hA] at h1
    cases hB : yLoop cfg c sx' nx' newY eHeight eWidth ts with
    | some r' => rw [hB] at h1; simp at h1
    | none => exact ⟨rfl, rfl⟩

/-- The final x coordinate (grid rounding included) and the X-snapped flag are
unchanged when the candidate Y inputs of the X scan change. -/
theorem xFinal_indep (cfg : SnapConfig) (c : CanvasDims)
    (eLeft eRight eCenterX t1 b1 t2 b2 eWidth nx : ℚ) (ts : List Target) :
    ((if cfg.snapToGrid ∧ xLoop cfg c eLeft eRight eCenterX t1 b1 eWidth ts = none then
        gridRound nx cfg.gridSize
      else corrOr (xLoop cfg c eLeft eRight eCenterX t1 b1 eWidth ts) nx) =
      (if cfg.snapToGrid ∧ xLoop cfg c eLeft eRight eCenterX t2 b2 eWidth ts = none then
        gridRound nx cfg.gridSize
      else corrOr (xLoop cfg c eLeft eRight eCenterX t2 b2 eWidth ts) nx)) ∧
    (xLoop cfg c eLeft eRight eCenterX t1 b1 eWidth ts).isSome =
      (xLoop cfg c eLeft eRight eCenterX t2 b2 eWidth ts).isSome := by
  have h1 := xLoop_fst_indep cfg c eLeft eRight eCenterX t1 b1 t2 b2 eWidth ts
  cases hA : xLoop cfg c eLeft eRight eCenterX t1 b1 eWidth ts with
  | some r =>
    rw [hA] at h1
    cases hB : xLoop cfg c eLeft eRight eCenterX t2 b2 eWidth ts with
    | some r' =>
      rw [hB] at h1
      obtain ⟨v, g⟩ := r
      obtain ⟨v', g'⟩ := r'
      simp only [Option.map_some', Option.some.injEq] at h1
      refine ⟨?_, rfl⟩
      simp [corrOr, h1]
    | none => rw [hB] at h1; simp at h1
  | none =>
    rw [hA] at h1
    cases hB : xLoop cfg c eLeft eRight eCenterX t2 b2 eWidth ts with
    | some r' => rw [hB] at h1; simp at h1
    | none => exact ⟨rfl, rfl⟩

/-- C2 (amended): `calculateSnap` performs exactly one pass per axis; the X
axis is decided first, against the original candidate Y, and its outcome
(`x`, `snappedX`) does not depend on the candidate Y; the Y axis is then
tested at the original candidate Y, so an X snap cannot change which Y
alignments match — the already-decided X only enters the horizontal guide
extents — and the Y outcome (`y`, `snappedY`) does not depend on the
candidate X; Y snapping never re-opens the X decision. -/
theorem calculateSnap_axis_independence (cfg : SnapConfig) (st : ModuleState)
    (elems : List DElem) (e : DElem) (nx nx' ny ny' : ℚ) :
    ((calculateSnap cfg st elems e nx ny).2.y = (calculateSnap cfg st elems e nx' ny).2.y ∧
      (calculateSnap cfg st elems e nx ny).2.snappedY =
        (calculateSnap cfg st elems e nx' ny).2.snappedY) ∧
    ((calculateSnap cfg st elems e nx ny).2.x = (calculateSnap cfg st elems e nx ny').2.x ∧
      (calculateSnap cfg st elems e nx ny).2.snappedX =
        (calculateSnap cfg st elems e nx ny').2.snappedX) := by
  obtain ⟨en, cv, ae⟩ := st
  cases cv with
  | none => exact ⟨⟨rfl, rfl⟩, ⟨rfl, rfl⟩⟩
  | some c =>
    cases en with
    | false => exact ⟨⟨rfl, rfl⟩, ⟨rfl, rfl⟩⟩
    | true =>
      constructor
      · have h := yFinal_indep cfg c
          (corrOr (xLoop cfg c nx (nx + e.width) (nx + e.width / 2) ny (ny + e.height) e.width
            (snapTargets cfg c elems (some e.id))) nx) nx
          (corrOr (xLoop cfg c nx' (nx' + e.width) (nx' + e.width / 2) ny (ny + e.height) e.width
            (snapTargets cfg c elems (some e.id))) nx') nx'
          ny e.height e.width (snapTargets cfg c elems (some e.id))
        exact h
      · have h := xFinal_indep cfg c nx (nx + e.width) (nx + e.width / 2)
          ny (ny + e.height) ny' (ny' + e.height) e.width nx
          (snapTargets cfg c elems (some e.id))
        exact h

end SmartGuides

namespace SmartGuides

/-- C2 counterexample: with the canvas and sibling of the C1 scenario,
candidate (201, 30) snaps X to 200 while candidate (100, 30) does not snap X,
yet both calls make exactly the same Y decision (center snap to y = 35);
moreover, at the X-snapped call the "adjusted" element top computed at line
208 (`snappedX = 200`, `newX = 201`, `elementTop = newY = 30`) is still the
original candidate top 30.  The X snap therefore did not influence which Y
alignments were geometrically tested, contradicting the claim. -/
theorem calculateSnap_x_snap_does_not_change_y_tests :
    (calculateSnap defaultConfig ⟨true, some ⟨300, 300⟩, none⟩ [⟨2, 200, 50, 40, 10, true⟩]
        ⟨1, 0, 0, 40, 40, true⟩ 201 30).2.snappedX = true ∧
    (calculateSnap defaultConfig ⟨true, some ⟨300, 300⟩, none⟩ [⟨2, 200, 50, 40, 10, true⟩]
        ⟨1, 0, 0, 40, 40, true⟩ 100 30).2.snappedX = false ∧
    (calculateSnap defaultConfig ⟨true, some ⟨300, 300⟩, none⟩ [⟨2, 200, 50, 40, 10, true⟩]
        ⟨1, 0, 0, 40, 40, true⟩ 201 30).2.y =
      (calculateSnap defaultConfig ⟨true, some ⟨300, 300⟩, none⟩ [⟨2, 200, 50, 40, 10, true⟩]
        ⟨1, 0, 0, 40, 40, true⟩ 100 30).2.y ∧
    (calculateSnap defaultConfig ⟨true, some ⟨300, 300⟩, none⟩ [⟨2, 200, 50, 40, 10, true⟩]
        ⟨1, 0, 0, 40, 40, true⟩ 201 30).2.snappedY = true ∧
    (calculateSnap defaultConfig ⟨true, some ⟨300, 300⟩, none⟩ [⟨2, 200, 50, 40, 10, true⟩]
        ⟨1, 0, 0, 40, 40, true⟩ 100 30).2.snappedY = true ∧
    adjustedTop 200 201 30 30 = 30 := by
  refine ⟨?_, ?_, ?_, ?_, ?_, ?_⟩ <;>
    norm_num [calculateSnap, defaultConfig, snapTargets, getSnappableElements, canvasTarget,
      elemTarget, xLoop, snapXTarget, yLoop, snapYTarget, adjustedTop, corrOr, guidesOf]

end SmartGuides

namespace SmartGuides

/-- C3 (amended): `calculateSnap` is deterministic and does not mutate the
dragged element (elements are immutable values here); its output does not
depend on the module-level `activeElement` it overwrites, and the write is
idempotent: re-running the call from the state it produced returns the very
same state and result. -/
theorem calculateSnap_deterministic_idempotent (cfg : SnapConfig) (st : ModuleState)
    (elems : List DElem) (e : DElem) (nx ny : ℚ) (a : Option Nat) :
    calculateSnap cfg (calculateSnap cfg st elems e nx ny).1 elems e nx ny =
      calculateSnap cfg st elems e nx ny ∧
    (calculateSnap cfg { st with activeElement := a } elems e nx ny).2 =
      (calculateSnap cfg st elems e nx ny).2 := by
  obtain ⟨en, cv, ae⟩ := st
  cases cv with
  | none => exact ⟨rfl, rfl⟩
  | some c =>
    cases en with
    | false => exact ⟨rfl, rfl⟩
    | true => exact ⟨rfl, rfl⟩

/-- C3 counterexample: `calculateSnap` does mutate hidden module state — with
guides enabled on a 300×300 canvas and `activeElement` initially unset, a
single call rewrites the module-level `activeElement` to the dragged element,
so the state after the call differs from the state before it. -/
theorem calculateSnap_mutates_module_state :
    (calculateSnap defaultConfig ⟨true, some ⟨300, 300⟩, none⟩ [] ⟨1, 0, 0, 40, 40, true⟩
        50 50).1 ≠ ⟨true, some ⟨300, 300⟩, none⟩ := by
  simp [calculateSnap]

end SmartGuides

namespace SmartGuides

/-- `gridRound` lands on a multiple of the grid size. -/
theorem gridRound_is_multiple (q g : ℚ) : ∃ k : ℤ, gridRound q g = (k : ℚ) * g :=
  ⟨jsRound (q / g), rfl⟩

/-- `gridRound` lands on a nearest multiple: it moves the coordinate by at
most half a grid cell. -/
theorem abs_gridRound_sub_le (q g : ℚ) (hg : 0 < g) : |gridRound q g - q| ≤ g / 2 := by
  have hne : g ≠ 0 := ne_of_gt hg
  have h1 : ((jsRound (q / g) : ℚ)) ≤ q / g + 1 / 2 := by
    simp only [jsRound]
    exact Int.floor_le (q / g + 1 / 2)
  have h2 : q / g + 1 / 2 - 1 < ((jsRound (q / g) : ℚ)) := by
    simp only [jsRound]
    exact Int.sub_one_lt_floor (q / g + 1 / 2)
  have h3 : |((jsRound (q / g) : ℚ)) - q / g| ≤ 1 / 2 := by
    rw [abs_le]
    constructor <;> linarith
  have key : gridRound q g - q = (((jsRound (q / g) : ℚ)) - q / g) * g := by
    rw [gridRound, sub_mul, div_mul_cancel₀ q hne]
  rw [key, abs_mul, abs_of_pos hg]
  have h4 := mul_le_mul_of_nonneg_right h3 (le_of_lt hg)
  linarith

end SmartGuides

namespace SmartGuides

/-- C4: when grid snapping is enabled, an axis that did not snap to an edge or
center is returned grid-rounded — `Math.round(candidate / gridSize) * gridSize`,
which is a multiple of the grid size within half a cell of the candidate —
while an axis that did snap is returned with exactly the value chosen by its
axis scan, untouched by the grid. -/
theorem calculateSnap_grid_rounding (cfg : SnapConfig) (st : ModuleState)
    (elems : List DElem) (e : DElem) (nx ny : ℚ) (c : CanvasDims)
    (hc : st.canvas = some c) (he : st.isEnabled = true)
    (hg : cfg.snapToGrid = true) (hpos : 0 < cfg.gridSize) :
    (((calculateSnap cfg st elems e nx ny).2.snappedX = false →
        (calculateSnap cfg st elems e nx ny).2.x = gridRound nx cfg.gridSize ∧
        (∃ k : ℤ, (calculateSnap cfg st elems e nx ny).2.x = (k : ℚ) * cfg.gridSize) ∧
        |(calculateSnap cfg st elems e nx ny).2.x - nx| ≤ cfg.gridSize / 2) ∧
      ((calculateSnap cfg st elems e nx ny).2.snappedX = true →
        ∃ g, xLoop cfg c nx (nx + e.width) (nx + e.width / 2) ny (ny + e.height) e.width
            (snapTargets cfg c elems (some e.id)) =
          some ((calculateSnap cfg st elems e nx ny).2.x, g))) ∧
    (((calculateSnap cfg st elems e nx ny).2.snappedY = false →
        (calculateSnap cfg st elems e nx ny).2.y = gridRound ny cfg.gridSize ∧
        (∃ k : ℤ, (calculateSnap cfg st elems e nx ny).2.y = (k : ℚ) * cfg.gridSize) ∧
        |(calculateSnap cfg st elems e nx ny).2.y - ny| ≤ cfg.gridSize / 2) ∧
      ((calculateSnap cfg st elems e nx ny).2.snappedY = true →
        ∃ g, yLoop cfg c
            (corrOr (xLoop cfg c nx (nx + e.width) (nx + e.width / 2) ny (ny + e.height) e.width
              (snapTargets cfg c elems (some e.id))) nx)
            nx ny e.height e.width (snapTargets cfg c elems (some e.id)) =
          some ((calculateSnap cfg st elems e nx ny).2.y, g))) := by
  obtain ⟨en, cv, ae⟩ := st
  dsimp only at hc he
  subst hc
  subst he
  simp only [calculateSnap]
  constructor
  · cases hx : xLoop cfg c nx (nx + e.width) (nx + e.width / 2) ny (ny + e.height) e.width
        (snapTargets cfg c elems (some e.id)) with
    | none =>
      refine ⟨fun _ => ?_, fun hfalse => by simp at hfalse⟩
      simp only [hg, true_and, if_pos rfl]
      exact ⟨rfl, gridRound_is_multiple nx cfg.gridSize, abs_gridRound_sub_le nx cfg.gridSize hpos⟩
    | some r =>
      obtain ⟨v, g⟩ := r
      refine ⟨fun hfalse => by simp at hfalse, fun _ => ?_⟩
      refine ⟨g, ?_⟩
      simp [corrOr]
  · cases hy : yLoop cfg c
        (corrOr (xLoop cfg c nx (nx + e.width) (nx + e.width / 2) ny (ny + e.height) e.width
          (snapTargets cfg c elems (some e.id))) nx)
        nx ny e.height e.width (snapTargets cfg c elems (some e.id)) with
    | none =>
      refine ⟨fun _ => ?_, fun hfalse => by simp at hfalse⟩
      simp only [hg, true_and, if_pos rfl]
      exact ⟨rfl, gridRound_is_multiple ny cfg.gridSize, abs_gridRound_sub_le ny cfg.gridSize hpos⟩
    | some r =>
      obtain ⟨v, g⟩ := r
      refine ⟨fun hfalse => by simp at hfalse, fun _ => ?_⟩
      refine ⟨g, ?_⟩
      simp [corrOr]

end SmartGuides

namespace SmartGuides

/-- Witness for the grid-rounding theorem: with grid snapping enabled on a
300×300 canvas and no siblings, candidate x = 103 snaps to no edge or center
and is grid-rounded to 100, within half a grid cell. -/
theorem calculateSnap_grid_rounding_witness :
    (calculateSnap { defaultConfig with snapToGrid := true } ⟨true, some ⟨300, 300⟩, none⟩ []
        ⟨1, 0, 0, 40, 40, true⟩ 103 57).2.x = gridRound 103 10 ∧
    |(calculateSnap { defaultConfig with snapToGrid := true } ⟨true, some ⟨300, 300⟩, none⟩ []
        ⟨1, 0, 0, 40, 40, true⟩ 103 57).2.x - 103| ≤ 10 / 2 := by
  have h := calculateSnap_grid_rounding { defaultConfig with snapToGrid := true }
    ⟨true, some ⟨300, 300⟩, none⟩ [] ⟨1, 0, 0, 40, 40, true⟩ 103 57 ⟨300, 300⟩ rfl rfl rfl
    (by norm_num [defaultConfig])
  have h2 := h.1.1 (by
    norm_num [calculateSnap, defaultConfig, snapTargets, getSnappableElements, canvasTarget,
      elemTarget, xLoop, snapXTarget, yLoop, snapYTarget, adjustedTop, corrOr, guidesOf])
  exact ⟨h2.1, h2.2.2⟩

end SmartGuides

namespace SmartGuides

/-- C5: under the default configuration, the snap-target list consulted by
`calculateSnap` always has the canvas bounding box as its first entry, and
contains a target for every other visible element; concretely, whenever
guides are enabled and the canvas is initialised, a candidate x within the
snap threshold of the canvas left edge snaps to it, sibling elements or not. -/
theorem snapTargets_canvas_always_candidate (c : CanvasDims) (elems : List DElem) (e : DElem)
    (st : ModuleState) (nx ny : ℚ)
    (he : st.isEnabled = true) (hc : st.canvas = some c) :
    canvasTarget c ∈ snapTargets defaultConfig c elems (some e.id) ∧
    (∀ el ∈ elems, el.id ≠ e.id → el.visible = true →
      elemTarget el ∈ snapTargets defaultConfig c elems (some e.id)) ∧
    (|nx| ≤ 8 →
      (calculateSnap defaultConfig st elems e nx ny).2.x = 0 ∧
      (calculateSnap defaultConfig st elems e nx ny).2.snappedX = true) := by
  refine ⟨List.mem_cons_self _ _, ?_, ?_⟩
  · intro el hmem hne hvis
    simp only [snapTargets, defaultConfig, if_true]
    exact List.mem_cons_of_mem _
      (List.mem_map_of_mem _ (List.mem_filter.mpr ⟨hmem, by simp [hne, hvis]⟩))
  · intro h
    obtain ⟨en, cv, ae⟩ := st
    dsimp only at hc he
    subst hc
    subst he
    have hfirst : snapXTarget defaultConfig c nx (nx + e.width) (nx + e.width / 2) ny
        (ny + e.height) e.width (canvasTarget c) =
        some (0, ⟨.vertical, 0, min ny 0, max (ny + e.height) c.height, false⟩) := by
      simp [snapXTarget, canvasTarget, defaultConfig, sub_zero, h]
    simp only [calculateSnap, snapTargets, xLoop, hfirst, corrOr]
    simp [defaultConfig]

end SmartGuides

namespace SmartGuides

/-- Witness for the snap-target theorem: on a 300×300 canvas with one visible
sibling, both the canvas target and the sibling's target are candidates, and
candidate x = 5 snaps to the canvas left edge. -/
theorem snapTargets_canvas_always_candidate_witness :
    canvasTarget ⟨300, 300⟩ ∈
      snapTargets defaultConfig ⟨300, 300⟩ [⟨2, 200, 50, 40, 10, true⟩] (some 1) ∧
    elemTarget ⟨2, 200, 50, 40, 10, true⟩ ∈
      snapTargets defaultConfig ⟨300, 300⟩ [⟨2, 200, 50, 40, 10, true⟩] (some 1) ∧
    (calculateSnap defaultConfig ⟨true, some ⟨300, 300⟩, none⟩ [⟨2, 200, 50, 40, 10, true⟩]
        ⟨1, 0, 0, 40, 40, true⟩ 5 77).2.x = 0 := by
  have h := snapTargets_canvas_always_candidate ⟨300, 300⟩ [⟨2, 200, 50, 40, 10, true⟩]
    ⟨1, 0, 0, 40, 40, true⟩ ⟨true, some ⟨300, 300⟩, none⟩ 5 77 rfl rfl
  refine ⟨h.1, ?_, ?_⟩
  · exact h.2.1 ⟨2, 200, 50, 40, 10, true⟩ (List.mem_singleton.mpr rfl) (by norm_num) rfl
  · exact (h.2.2 (by norm_num)).1

end SmartGuides

namespace ElementsLibrary

/-- C6: when no page is selected (`EditorState.currentPage` unset), both
`addElementToCurrentPage` and `addQRCodeToCurrentPage` reject the operation
with a transient warning toast and abandon it without side effects: the
editor state — element lists, history stack, dirty flag — is returned
unchanged. -/
theorem addElement_no_page_rejected (iconsLib : List (String × IconDef)) (nonce : Nat)
    (propertyUrl : String) (capture now : Nat) (dom : List PageDomInfo) (st : EditorSt)
    (elementType shapeType iconType : String)
    (h : st.currentPage = none) :
    addElementToCurrentPage iconsLib nonce propertyUrl capture now dom st elementType
        shapeType iconType =
      (st, ⟨[("Please select a page first", "warning")], []⟩) ∧
    addQRCodeToCurrentPage iconsLib nonce propertyUrl capture now dom st =
      (st, ⟨[("Please select a page first", "warning")], []⟩) := by
  unfold addQRCodeToCurrentPage addElementToCurrentPage
  rw [h]
  exact ⟨rfl, rfl⟩

/-- Witness: adding a shape with no page selected leaves the empty editor
state untouched and only warns. -/
theorem addElement_no_page_rejected_witness :
    addElementToCurrentPage [] 0 "https://doorstep.co.uk" 0 0 []
        ⟨none, [], [], -1, 50, false, false⟩ "shape" "rect" "" =
      (⟨none, [], [], -1, 50, false, false⟩,
        ⟨[("Please select a page first", "warning")], []⟩) :=
  (addElement_no_page_rejected [] 0 "https://doorstep.co.uk" 0 0 []
    ⟨none, [], [], -1, 50, false, false⟩ "shape" "rect" "" rfl).1

end ElementsLibrary

/-- C7: data-integrity failures at the public interface are logged and
silently no-op.  Creating an icon whose `iconType` is not in the icon library
leaves the editor state untouched (no element, no history snapshot, no dirty
flag) and only logs; applying a colour-scheme id that is not in
`COLOR_SCHEMES` leaves the colour-scheme state untouched (no recolouring, no
`currentScheme` change, no history snapshot, no dirty flag) and only logs. -/
theorem unknown_icon_and_scheme_noop (iconsLib : List (String × ElementsLibrary.IconDef))
    (nonce : Nat) (propertyUrl : String) (capture now : Nat) (st : ElementsLibrary.EditorSt)
    (pageId iconType : String) (x y : ℚ)
    (csSt : ColorSchemes.CSState) (schemeId : String) (currentPageOnly : Bool)
    (curPage : Option String)
    (h1 : lookupStr iconsLib iconType = none)
    (h2 : lookupStr ColorSchemes.COLOR_SCHEMES schemeId = none) :
    ElementsLibrary.addElementAtPosition iconsLib nonce propertyUrl capture now st pageId
        "icon" "" iconType x y = (st, ⟨[], ["Unknown icon type: " ++ iconType]⟩) ∧
    ColorSchemes.applyColorScheme csSt schemeId currentPageOnly curPage =
      (csSt, ⟨[], ["Unknown color scheme: " ++ schemeId]⟩) := by
  constructor
  · simp [ElementsLibrary.addElementAtPosition, ElementsLibrary.createIconElement, h1]
  · simp only [ColorSchemes.applyColorScheme, h2]

/-- Witness: an icon type missing from a one-icon library and a colour-scheme
id outside the preset table both no-op on concrete states. -/
theorem unknown_icon_and_scheme_noop_witness :
    ElementsLibrary.addElementAtPosition [("bed", ⟨"0 0 24 24", "M2 4h20v16"⟩)] 0
        "https://doorstep.co.uk" 0 0 ⟨some "p1", [], [], -1, 50, false, false⟩
        "p1" "icon" "" "sofa" 10 10 =
      (⟨some "p1", [], [], -1, 50, false, false⟩, ⟨[], ["Unknown icon type: sofa"]⟩) ∧
    ColorSchemes.applyColorScheme ⟨none, [], false, []⟩ "neonCyber" false none =
      (⟨none, [], false, []⟩, ⟨[], ["Unknown color scheme: neonCyber"]⟩) :=
  unknown_icon_and_scheme_noop [("bed", ⟨"0 0 24 24", "M2 4h20v16"⟩)] 0
    "https://doorstep.co.uk" 0 0 ⟨some "p1", [], [], -1, 50, false, false⟩ "p1" "sofa" 10 10
    ⟨none, [], false, []⟩ "neonCyber" false none rfl rfl

namespace ElementsLibrary

/-- C9: every element the constructors produce is created unlocked, visible,
with zero rotation, and with an id freshly generated by
`ElementDrag.createElementId` — for shapes, icons (when the icon type is
known) and QR codes alike. -/
theorem created_elements_unlocked_visible (nonce : Nat) (shapeType url : String)
    (opts : ElementOptions) (iconsLib : List (String × IconDef)) (iconType : String)
    (iconDef : IconDef) (h : lookupStr iconsLib iconType = some iconDef) :
    ((createShapeElement nonce shapeType opts).locked = false ∧
      (createShapeElement nonce shapeType opts).visible = true ∧
      (createShapeElement nonce shapeType opts).rotation = 0 ∧
      (createShapeElement nonce shapeType opts).id = ElementDrag.createElementId nonce) ∧
    (∃ el, createIconElement nonce iconsLib iconType opts = some el ∧
      el.locked = false ∧ el.visible = true ∧ el.rotation = 0 ∧
      el.id = ElementDrag.createElementId nonce) ∧
    ((createQRCodeElement nonce url opts).locked = false ∧
      (createQRCodeElement nonce url opts).visible = true ∧
      (createQRCodeElement nonce url opts).rotation = 0 ∧
      (createQRCodeElement nonce url opts).id = ElementDrag.createElementId nonce) := by
  refine ⟨⟨rfl, rfl, rfl, rfl⟩, ?_, rfl, rfl, rfl, rfl⟩
  simp only [createIconElement, h]
  exact ⟨_, rfl, rfl, rfl, rfl, rfl⟩

end ElementsLibrary

namespace ElementsLibrary

/-- Witness: concrete shape, icon (from a one-icon library) and QR elements,
all unlocked, visible, unrotated, and carrying the generated id. -/
theorem created_elements_unlocked_visible_witness :
    (createShapeElement 7 "rect" noOptions).locked = false ∧
    (∃ el, createIconElement 7 [("bed", ⟨"0 0 24 24", "M2 4h20v16"⟩)] "bed" noOptions =
        some el ∧ el.locked = false ∧ el.visible = true ∧ el.rotation = 0 ∧
        el.id = ElementDrag.createElementId 7) ∧
    (createQRCodeElement 7 "https://doorstep.co.uk" noOptions).visible = true := by
  have h := created_elements_unlocked_visible 7 "rect" "https://doorstep.co.uk" noOptions
    [("bed", ⟨"0 0 24 24", "M2 4h20v16"⟩)] "bed" ⟨"0 0 24 24", "M2 4h20v16"⟩ rfl
  exact ⟨h.1.1, h.2.1, h.2.2.2.1⟩

end ElementsLibrary

namespace MultiFormatExport

/-- Everything `dedupKeepFirst` emits avoids the seen-set it was given. -/
theorem dedupKeepFirst_not_mem_seen (l : List String) :
    ∀ (seen : List String) (x : String), x ∈ dedupKeepFirst seen l → x ∉ seen := by
  induction l with
  | nil => intro seen x hx; simp [dedupKeepFirst] at hx
  | cons a l ih =>
    intro seen x hx
    rw [dedupKeepFirst] at hx
    by_cases ha : a ∈ seen
    · rw [if_pos ha] at hx
      exact ih seen x hx
    · rw [if_neg ha] at hx
      rcases List.mem_cons.mp hx with hxa | hxl
      · subst hxa; exact ha
      · intro hxs
        exact ih (a :: seen) x hxl (List.mem_cons_of_mem a hxs)

/-- `dedupKeepFirst` returns a duplicate-free list. -/
theorem dedupKeepFirst_nodup (l : List String) :
    ∀ seen : List String, (dedupKeepFirst seen l).Nodup := by
  induction l with
  | nil => intro seen; simp [dedupKeepFirst]
  | cons a l ih =>
    intro seen
    rw [dedupKeepFirst]
    by_cases ha : a ∈ seen
    · rw [if_pos ha]; exact ih seen
    · rw [if_neg ha]
      refine List.nodup_cons.mpr ⟨?_, ih (a :: seen)⟩
      intro hmem
      exact dedupKeepFirst_not_mem_seen l (a :: seen) a hmem (List.mem_cons_self a seen)

/-- C10: for every input page list, the highlights returned by
`extractContentSections` are pairwise distinct and number at most 8, no
matter how many highlight strings the pages and their content blocks
contribute. -/
theorem extract_highlights_nodup_le_8 (pages : List PageX) :
    (extractContentSections pages).highlights.Nodup ∧
    (extractContentSections pages).highlights.length ≤ 8 := by
  unfold extractContentSections
  split
  · simp [emptySections]
  · constructor
    · exact ((List.take_sublist 8 _).nodup
        (dedupKeepFirst_nodup (pages.foldl collectFromPage emptySections).highlights []))
    · exact List.length_take_le 8 _

end MultiFormatExport

namespace MultiFormatExport

/-- C8: when every page image generates successfully, the export ZIP contains,
in order, the PDF entry (present exactly when the backend round-trip on the
full brochure data succeeds), one JPEG and one PNG per page for exactly the
first `min(n, 10)` pages, the HTML preview built from the full page list, and
the README. -/
theorem export_images_first_ten_pages {β : Type} (d : BrochureData)
    (pdfGen : BrochureData → Option β) (f : PageX → String → ℚ → β)
    (htmlGen : List PageX → String) (readme : String) :
    ((exportMultipleFormats (some d) pdfGen (fun p fmt q => some (f p fmt q)) htmlGen
        readme).map Prod.fst =
      (pdfGen d).elim [] (fun _ => ["brochure.pdf"]) ++
      (List.range (min d.pages.length 10)).flatMap (fun i =>
        ["images/page_" ++ toString (i + 1) ++ ".jpg",
         "images/page_" ++ toString (i + 1) ++ ".png"]) ++
      ["preview.html", "README.txt"]) ∧
    ("preview.html", ZipContent.text (htmlGen d.pages)) ∈
      exportMultipleFormats (some d) pdfGen (fun p fmt q => some (f p fmt q)) htmlGen readme ∧
    (∀ b, pdfGen d = some b →
      ("brochure.pdf", ZipContent.blob b) ∈
        exportMultipleFormats (some d) pdfGen (fun p fmt q => some (f p fmt q)) htmlGen
          readme) := by
  refine ⟨?_, ?_, ?_⟩
  · simp only [exportMultipleFormats, Option.map_some', Option.getD_some]
    rw [List.map_append, List.map_append]
    have key : ∀ i ∈ List.range (min d.pages.length 10),
        (List.map Prod.fst
          (match d.pages[i]? with
           | some page =>
             [("images/page_" ++ toString (i + 1) ++ ".jpg",
               (ZipContent.blob (f page "jpeg" (85 / 100)) : ZipContent β))] ++
             [("images/page_" ++ toString (i + 1) ++ ".png", ZipContent.blob (f page "png" 1))]
           | none => [])) =
        ["images/page_" ++ toString (i + 1) ++ ".jpg",
         "images/page_" ++ toString (i + 1) ++ ".png"] := by
      intro i hi
      rw [List.mem_range] at hi
      have hlt : i < d.pages.length := lt_of_lt_of_le hi (min_le_left _ _)
      rw [List.getElem?_eq_getElem hlt]
      rfl
    refine congrArg₂ _ (congrArg₂ _ ?_ ?_) rfl
    · cases hp : pdfGen d <;> simp [hp]
    · rw [List.map_flatMap]
      exact List.flatMap_congr key
  · simp [exportMultipleFormats]
  · intro b hb
    simp [exportMultipleFormats, hb]

end MultiFormatExport

namespace MultiFormatExport

/-- Witness for the export theorem at a concrete brochure: the PDF entry built
from the full data is in the ZIP, and the name list caps the images at the
first 10 of 12 pages. -/
theorem export_images_first_ten_pages_witness :
    ("brochure.pdf", ZipContent.blob (0 : Nat)) ∈
      exportMultipleFormats
        (some ⟨List.replicate 12 ⟨"Page", ⟨"", [], ""⟩, []⟩⟩)
        (fun _ => some 0) (fun _ _ _ => some 1) (fun _ => "preview") "readme" ∧
    ((exportMultipleFormats
        (some ⟨List.replicate 12 ⟨"Page", ⟨"", [], ""⟩, []⟩⟩)
        (fun _ => some 0) (fun _ _ _ => some (1 : Nat)) (fun _ => "preview") "readme").map
      Prod.fst).length = 1 + 20 + 2 := by
  have h := export_images_first_ten_pages
    (⟨List.replicate 12 ⟨"Page", ⟨"", [], ""⟩, []⟩⟩ : BrochureData)
    (fun _ => some (0 : Nat)) (fun _ _ _ => (1 : Nat)) (fun _ => "preview") "readme"
  refine ⟨h.2.2 0 rfl, ?_⟩
  rw [h.1]
  rfl

end MultiFormatExport
